import Mathlib

/-!
Verification of the QueryableList filtering engine (src/QueryableList/Base.py).

The development shallowly embeds the filter-argument parser
(`getFiltersFromArgs`) and the predicate evaluator
(`QueryableListBase.filterAnd` / `filterOr`).  Python's dynamically typed
values are modelled by the inductive type `Val`; fallible Python operations
(comparison, containment, `.lower()`, iteration) return `Except PyErr _`,
with `PyErr` standing for the exception class that CPython would raise.

Records are modelled as association lists of field name / value pairs.  The
field accessor `_get_item_value` is an external collaborator of the core
(spec sections 4.2 and 6), modelled as key lookup returning the null
sentinel for a missing field.
-/

/-- Universe of Python values handled by the engine: `None`, booleans,
integers, strings and lists.  Python sets produced by the parser's
`set(value)` coercion are represented by their element list, which is
membership-equivalent (deduplication and iteration order are unobservable
to the evaluator, which only performs `in` tests on such values). -/
inductive Val where
  | none
  | bool (b : Bool)
  | int (n : Int)
  | str (s : String)
  | list (elems : List Val)

/-- Exceptions that the embedded code can raise. -/
inductive PyErr where
  | typeError
  | attributeError
  | nameError
  | valueError (msg : String)
deriving DecidableEq

mutual

/-- Python `==` on the modelled values: `None` equals only `None`, booleans
compare with integers by their numeric value (as in CPython), strings
compare as strings, lists compare elementwise; values of other mixed kinds
are unequal. -/
def pyEq : Val → Val → Bool
  | Val.none, Val.none => true
  | Val.bool a, Val.bool b => a == b
  | Val.bool a, Val.int n => (if a then (1 : Int) else 0) == n
  | Val.int n, Val.bool b => n == (if b then (1 : Int) else 0)
  | Val.int a, Val.int b => a == b
  | Val.str a, Val.str b => a == b
  | Val.list a, Val.list b => pyEqList a b
  | _, _ => false

/-- Elementwise list equality used by `pyEq`. -/
def pyEqList : List Val → List Val → Bool
  | [], [] => true
  | a :: as, b :: bs => pyEq a b && pyEqList as bs
  | _, _ => false

end

/-- Python `is` (identity).  Exact for the interned singletons `None`,
`True` and `False`, which is the use the engine makes of it ("used chiefly
for null checks", spec section 4.2); other values are modelled
structurally. -/
def pyIs (a b : Val) : Bool :=
  pyEq a b

/-- Python `x.lower()`: defined for strings, `AttributeError` otherwise. -/
def pyLower : Val → Except PyErr Val
  | Val.str s => Except.ok (Val.str (String.mk (s.data.map Char.toLower)))
  | _ => Except.error PyErr.attributeError

/-- Python iteration over a value: lists yield their elements, strings
yield their one-character substrings, other values raise `TypeError`. -/
def pyIter : Val → Except PyErr (List Val)
  | Val.list l => Except.ok l
  | Val.str s => Except.ok (s.data.map (fun c => Val.str (String.mk [c])))
  | _ => Except.error PyErr.typeError

/-- Needle-in-haystack test on character lists (Python substring `in`). -/
def charsInfix (ndl : List Char) : List Char → Bool
  | [] => ndl.isEmpty
  | c :: rest => ndl.isPrefixOf (c :: rest) || charsInfix ndl rest

/-- Python membership `x in v`: element test for lists, substring test for
strings (raising `TypeError` when the needle is not a string), `TypeError`
for non-container values. -/
def pyIn (x v : Val) : Except PyErr Bool :=
  match v with
  | Val.list l => Except.ok (l.any (fun e => pyEq e x))
  | Val.str s =>
    match x with
    | Val.str xs => Except.ok (charsInfix xs.data s.data)
    | _ => Except.error PyErr.typeError
  | _ => Except.error PyErr.typeError

/-- Python ordering comparison, shared by `<`, `<=`, `>`, `>=`: integers
and booleans compare numerically, strings lexicographically; any other
combination raises `TypeError` ("requires x, v mutually ordered", spec
section 4.2). -/
def pyCmp (a b : Val) : Except PyErr Ordering :=
  match a, b with
  | Val.int x, Val.int y => Except.ok (compare x y)
  | Val.int x, Val.bool y => Except.ok (compare x (if y then 1 else 0))
  | Val.bool x, Val.int y => Except.ok (compare (if x then (1 : Int) else 0) y)
  | Val.bool x, Val.bool y =>
    Except.ok (compare (if x then (1 : Int) else 0) (if y then 1 else 0))
  | Val.str x, Val.str y => Except.ok (compare x y)
  | _, _ => Except.error PyErr.typeError

/-- Python `x < v`. -/
def pyLt (a b : Val) : Except PyErr Bool :=
  match pyCmp a b with
  | Except.error e => Except.error e
  | Except.ok o => Except.ok (o == Ordering.lt)

/-- Python `x <= v`. -/
def pyLe (a b : Val) : Except PyErr Bool :=
  match pyCmp a b with
  | Except.error e => Except.error e
  | Except.ok o => Except.ok (!(o == Ordering.gt))

/-- Python `x > v`. -/
def pyGt (a b : Val) : Except PyErr Bool :=
  match pyCmp a b with
  | Except.error e => Except.error e
  | Except.ok o => Except.ok (o == Ordering.gt)

/-- Python `x >= v`. -/
def pyGe (a b : Val) : Except PyErr Bool :=
  match pyCmp a b with
  | Except.error e => Except.error e
  | Except.ok o => Except.ok (!(o == Ordering.lt))

/-- One clause of a FilterSpec: a (field name, comparison value) pair. -/
abbrev Clause := String × Val

/-- A record: association list from field names to values.  The engine
treats records as opaque and reads fields only through the accessor. -/
abbrev Record := List (String × Val)

/-- Modelled from the spec: the field accessor is an external collaborator
("getValue(record, field) -> any", spec sections 4.2 and 6; the class in
Base.py leaves `_get_item_value` to implementing subclasses).  It is
modelled as association-list lookup substituting the null sentinel for a
missing field, one of the two accessor policies the spec allows. -/
def _get_item_value (item : Record) (fieldName : String) : Val :=
  match item.lookup fieldName with
  | some v => v
  | none => Val.none

/-- The normalized FilterSpec: one ordered clause list per operator, as
built by `getFiltersFromArgs` in Base.py (the `ret` dictionary).  There is
no `isnull` entry: `isnull` is rewritten into `is`/`isnot` at parse time. -/
structure Filters where
  eq : List Clause
  ieq : List Clause
  ne : List Clause
  ine : List Clause
  lt : List Clause
  gt : List Clause
  lte : List Clause
  gte : List Clause
  is : List Clause
  isnot : List Clause
  «in» : List Clause
  notin : List Clause
  contains : List Clause
  notcontains : List Clause
  containsAny : List Clause
  notcontainsAny : List Clause

/-- The empty FilterSpec (the initial `ret` dictionary in
`getFiltersFromArgs`). -/
def emptyFilters : Filters :=
  ⟨[], [], [], [], [], [], [], [], [], [], [], [], [], [], [], []⟩

/-- Modelled from the spec: `FILTER_TYPES` is imported by Base.py from the
package `__init__`, which is not part of the given sources.  The spec fixes
its content: the canonical operator vocabulary including the pseudo-operator
`isnull` (spec sections 3 and 6). -/
def FILTER_TYPES : List String :=
  ["eq", "ieq", "ne", "ine", "lt", "lte", "gt", "gte", "is", "isnot",
   "isnull", "in", "notin", "contains", "notcontains", "containsAny",
   "notcontainsAny"]

/-- True when positions i and i+1 of the key hold `__` with a nonempty
field part before and a nonempty filter-type part after, i.e. a split the
greedy regex `^(?P<field>.+)__(?P<filterType>.+)$` could make. -/
def isDunderAt (cs : List Char) (i : Nat) : Bool :=
  decide (0 < i) && decide (i + 2 < cs.length) &&
    (cs.getD i (' ') == ('_')) && (cs.getD (i + 1) (' ')) == ('_')

/-- Index of the split chosen by `FILTER_PARAM_RE`: the greedy `.+` on the
field group makes the regex split at the last eligible `__`. -/
def dunderSplitIdx (cs : List Char) : Option Nat :=
  ((List.range cs.length).filter (fun i => isDunderAt cs i)).getLast?

/-- `FILTER_PARAM_RE.match(key)`: splits `field__filterType` at the last
eligible `__` (Base.py line 9), or `none` when the pattern does not match. -/
def filterParamMatch (key : String) : Option (String × String) :=
  match dunderSplitIdx key.data with
  | none => none
  | some i => some (⟨key.data.take i⟩, ⟨key.data.drop (i + 2)⟩)

/-- The message of the `ValueError` raised for an unknown filter type
(Base.py line 59): it names the offending operator literally and lists the
valid choices. -/
def unknownFilterTypeMsg (filterType : String) : String :=
  ("Unknown filter type: ") ++ filterType ++ (". Choices are: (") ++
    String.intercalate (", ") FILTER_TYPES ++ (")")

/-- `ret[filterType].append((field, value))` (Base.py line 82): appends the
clause to the list of the resolved filter type.  By the time this line runs
the filter type is a member of `FILTER_TYPES` other than `isnull`; the
final catch-all branch is unreachable. -/
def appendClause (ret : Filters) (filterType : String) (c : Clause) : Filters :=
  if filterType = ("eq") then { ret with eq := ret.eq ++ [c] }
  else if filterType = ("ieq") then { ret with ieq := ret.ieq ++ [c] }
  else if filterType = ("ne") then { ret with ne := ret.ne ++ [c] }
  else if filterType = ("ine") then { ret with ine := ret.ine ++ [c] }
  else if filterType = ("lt") then { ret with lt := ret.lt ++ [c] }
  else if filterType = ("gt") then { ret with gt := ret.gt ++ [c] }
  else if filterType = ("lte") then { ret with lte := ret.lte ++ [c] }
  else if filterType = ("gte") then { ret with gte := ret.gte ++ [c] }
  else if filterType = ("is") then { ret with is := ret.is ++ [c] }
  else if filterType = ("isnot") then { ret with isnot := ret.isnot ++ [c] }
  else if filterType = ("in") then { ret with «in» := ret.«in» ++ [c] }
  else if filterType = ("notin") then { ret with notin := ret.notin ++ [c] }
  else if filterType = ("contains") then
    { ret with contains := ret.contains ++ [c] }
  else if filterType = ("notcontains") then
    { ret with notcontains := ret.notcontains ++ [c] }
  else if filterType = ("containsAny") then
    { ret with containsAny := ret.containsAny ++ [c] }
  else if filterType = ("notcontainsAny") then
    { ret with notcontainsAny := ret.notcontainsAny ++ [c] }
  else ret

/-- `set(value)` with fallback (Base.py lines 71-76): an iterable value is
coerced to a set, modelled by its element list (membership-equivalent); a
non-iterable value is kept unchanged. -/
def pySetCoerce (v : Val) : Val :=
  match pyIter v with
  | Except.ok elems => Val.list elems
  | Except.error _ => v

/-- Processing of one keyword argument by `getFiltersFromArgs` (Base.py
lines 42-82): split the key on the last `__`; no match means operator `eq`
with the whole key as field; a matched but unknown filter type raises
`ValueError`; `isnull` demands a strict bool and is rewritten to `is`
(value `True`) or `isnot` (`False`) with value `None`; `in`/`notin` values
are set-coerced; `ieq`/`ine` values are lower-cased eagerly, with no
try/except, so a value without `lower()` raises `AttributeError`. -/
def applyFilterArg (ret : Filters) (key : String) (value : Val) :
    Except PyErr Filters :=
  match filterParamMatch key with
  | none => Except.ok (appendClause ret ("eq") (key, value))
  | some (field, filterType) =>
    if filterType ∉ FILTER_TYPES then
      Except.error (PyErr.valueError (unknownFilterTypeMsg filterType))
    else if filterType = ("isnull") then
      match value with
      | Val.bool b =>
        Except.ok (appendClause ret (if b then ("is") else ("isnot"))
          (field, Val.none))
      | _ =>
        Except.error (PyErr.valueError
          ("Filter type \"isnull\" requires True/False."))
    else if filterType = ("in") ∨ filterType = ("notin") then
      Except.ok (appendClause ret filterType (field, pySetCoerce value))
    else if filterType = ("ieq") ∨ filterType = ("ine") then
      match pyLower value with
      | Except.error e => Except.error e
      | Except.ok lv => Except.ok (appendClause ret filterType (field, lv))
    else Except.ok (appendClause ret filterType (field, value))

/-- Loop of `getFiltersFromArgs` over the keyword arguments in order. -/
def getFiltersFromArgsAux (ret : Filters) :
    List (String × Val) → Except PyErr Filters
  | [] => Except.ok ret
  | (key, value) :: rest =>
    match applyFilterArg ret key value with
    | Except.error e => Except.error e
    | Except.ok ret2 => getFiltersFromArgsAux ret2 rest

/-- `getFiltersFromArgs(kwargs)` (Base.py lines 12-84): builds the
normalized FilterSpec from the keyword arguments, or raises. -/
def getFiltersFromArgs (kwargs : List (String × Val)) : Except PyErr Filters :=
  getFiltersFromArgsAux emptyFilters kwargs

/-- The sixteen operators of the normalized FilterSpec. -/
inductive Op where
  | eq | ieq | ne | ine | lt | lte | gt | gte
  | is | isnot | «in» | notin
  | contains | notcontains | containsAny | notcontainsAny
deriving DecidableEq

/-- Clause list of a FilterSpec for a given operator
(`filters[filterType]` in the evaluator loops). -/
def getOpClauses (flt : Filters) : Op → List Clause
  | Op.eq => flt.eq
  | Op.ieq => flt.ieq
  | Op.ne => flt.ne
  | Op.ine => flt.ine
  | Op.lt => flt.lt
  | Op.lte => flt.lte
  | Op.gt => flt.gt
  | Op.gte => flt.gte
  | Op.is => flt.is
  | Op.isnot => flt.isnot
  | Op.«in» => flt.«in»
  | Op.notin => flt.notin
  | Op.contains => flt.contains
  | Op.notcontains => flt.notcontains
  | Op.containsAny => flt.containsAny
  | Op.notcontainsAny => flt.notcontainsAny

/-- The fixed order in which both `filterAnd` and `filterOr` run the
per-operator loops (Base.py lines 129-293 and 322-500). -/
def opOrder : List Op :=
  [Op.is, Op.isnot, Op.«in», Op.notin, Op.eq, Op.ieq, Op.ne, Op.ine,
   Op.lt, Op.lte, Op.gt, Op.gte,
   Op.contains, Op.notcontains, Op.containsAny, Op.notcontainsAny]

/-- `any(maybeContains in itemValue for maybeContains in elems)` with
Python error propagation: the `containsAny`/`notcontainsAny` inner loop
body (no try/except around the membership tests). -/
def anyContained (itemValue : Val) : List Val → Except PyErr Bool
  | [] => Except.ok false
  | e :: rest =>
    match pyIn e itemValue with
    | Except.error err => Except.error err
    | Except.ok true => Except.ok true
    | Except.ok false => anyContained itemValue rest

/-- The `containsAny` check (Base.py lines 270-279 / 476-485): iterate the
clause value (raising `TypeError` when it is not iterable, since the loop
has no try/except) and test containment of each element in the field
value. -/
def pyContainsAnyChk (value itemValue : Val) : Except PyErr Bool :=
  match pyIter value with
  | Except.error e => Except.error e
  | Except.ok elems => anyContained itemValue elems

/-- One clause check of the AND loops in `filterAnd` (Base.py
lines 129-293); `Except.ok true` means the clause lets the record through,
`Except.ok false` means `keepIt = False`.  Soft failures follow the
source's try/except blocks exactly:
* `ieq`: a field value without `lower()` fails the clause (lines 174-178);
* `ine`: a field value without `lower()` passes the clause (lines 197-201);
* `contains`: a field value not supporting `in` fails the clause
  (lines 245-252);
* `notcontains`: such a field value passes the clause (lines 259-265);
* `lt/lte/gt/gte` test the negated comparison and propagate comparison
  errors (lines 210-238);
* `containsAny` has no try/except, so containment errors propagate
  (lines 270-279);
* `notcontainsAny` iterates `Value`, a name defined nowhere, so the first
  clause raises `NameError` (line 287). -/
def andMatch (op : Op) (item : Record) (c : Clause) : Except PyErr Bool :=
  match op with
  | Op.is => Except.ok (pyIs (_get_item_value item c.1) c.2)
  | Op.isnot => Except.ok (!(pyIs (_get_item_value item c.1) c.2))
  | Op.«in» => pyIn (_get_item_value item c.1) c.2
  | Op.notin =>
    match pyIn (_get_item_value item c.1) c.2 with
    | Except.error e => Except.error e
    | Except.ok b => Except.ok (!b)
  | Op.eq => Except.ok (pyEq (_get_item_value item c.1) c.2)
  | Op.ieq =>
    match pyLower (_get_item_value item c.1) with
    | Except.error _ => Except.ok false
    | Except.ok lv => Except.ok (pyEq lv c.2)
  | Op.ne => Except.ok (!(pyEq (_get_item_value item c.1) c.2))
  | Op.ine =>
    match pyLower (_get_item_value item c.1) with
    | Except.error _ => Except.ok true
    | Except.ok lv => Except.ok (!(pyEq lv c.2))
  | Op.lt =>
    match pyGe (_get_item_value item c.1) c.2 with
    | Except.error e => Except.error e
    | Except.ok b => Except.ok (!b)
  | Op.lte =>
    match pyGt (_get_item_value item c.1) c.2 with
    | Except.error e => Except.error e
    | Except.ok b => Except.ok (!b)
  | Op.gt =>
    match pyLe (_get_item_value item c.1) c.2 with
    | Except.error e => Except.error e
    | Except.ok b => Except.ok (!b)
  | Op.gte =>
    match pyLt (_get_item_value item c.1) c.2 with
    | Except.error e => Except.error e
    | Except.ok b => Except.ok (!b)
  | Op.contains =>
    match pyIn c.2 (_get_item_value item c.1) with
    | Except.error _ => Except.ok false
    | Except.ok b => Except.ok b
  | Op.notcontains =>
    match pyIn c.2 (_get_item_value item c.1) with
    | Except.error _ => Except.ok true
    | Except.ok b => Except.ok (!b)
  | Op.containsAny => pyContainsAnyChk c.2 (_get_item_value item c.1)
  | Op.notcontainsAny => Except.error PyErr.nameError

/-- Result of one clause check in the OR loops of `filterOr`:
`matched` sets `keepIt = True` and accepts the record, `noMatch` moves to
the next clause, `stopGroup` is the `keepIt = False; break` of the `ieq`
loop, which abandons the remaining clauses of that operator only. -/
inductive OrRes where
  | matched
  | noMatch
  | stopGroup
deriving DecidableEq

/-- One clause check of the OR loops in `filterOr` (Base.py
lines 322-500).  Differences from the AND loops, following the source:
* every positive comparison is taken directly (`<` instead of `not >=`);
* `ieq` on a field value without `lower()` runs `keepIt = False; break`,
  abandoning the rest of the `ieq` clause list (lines 371-375);
* `ine` on such a value just skips the clause (lines 397-400);
* `contains` on a field value not supporting `in` skips the clause
  (lines 449-455), while `notcontains` accepts the record (lines 463-470);
* `notcontainsAny` iterates the undefined name `Value` and raises
  `NameError` on its first clause (line 494). -/
def orMatch (op : Op) (item : Record) (c : Clause) : Except PyErr OrRes :=
  match op with
  | Op.is =>
    Except.ok (if pyIs (_get_item_value item c.1) c.2 then OrRes.matched
      else OrRes.noMatch)
  | Op.isnot =>
    Except.ok (if pyIs (_get_item_value item c.1) c.2 then OrRes.noMatch
      else OrRes.matched)
  | Op.«in» =>
    match pyIn (_get_item_value item c.1) c.2 with
    | Except.error e => Except.error e
    | Except.ok b => Except.ok (if b then OrRes.matched else OrRes.noMatch)
  | Op.notin =>
    match pyIn (_get_item_value item c.1) c.2 with
    | Except.error e => Except.error e
    | Except.ok b => Except.ok (if b then OrRes.noMatch else OrRes.matched)
  | Op.eq =>
    Except.ok (if pyEq (_get_item_value item c.1) c.2 then OrRes.matched
      else OrRes.noMatch)
  | Op.ieq =>
    match pyLower (_get_item_value item c.1) with
    | Except.error _ => Except.ok OrRes.stopGroup
    | Except.ok lv =>
      Except.ok (if pyEq lv c.2 then OrRes.matched else OrRes.noMatch)
  | Op.ne =>
    Except.ok (if pyEq (_get_item_value item c.1) c.2 then OrRes.noMatch
      else OrRes.matched)
  | Op.ine =>
    match pyLower (_get_item_value item c.1) with
    | Except.error _ => Except.ok OrRes.noMatch
    | Except.ok lv =>
      Except.ok (if pyEq lv c.2 then OrRes.noMatch else OrRes.matched)
  | Op.lt =>
    match pyLt (_get_item_value item c.1) c.2 with
    | Except.error e => Except.error e
    | Except.ok b => Except.ok (if b then OrRes.matched else OrRes.noMatch)
  | Op.lte =>
    match pyLe (_get_item_value item c.1) c.2 with
    | Except.error e => Except.error e
    | Except.ok b => Except.ok (if b then OrRes.matched else OrRes.noMatch)
  | Op.gt =>
    match pyGt (_get_item_value item c.1) c.2 with
    | Except.error e => Except.error e
    | Except.ok b => Except.ok (if b then OrRes.matched else OrRes.noMatch)
  | Op.gte =>
    match pyGe (_get_item_value item c.1) c.2 with
    | Except.error e => Except.error e
    | Except.ok b => Except.ok (if b then OrRes.matched else OrRes.noMatch)
  | Op.contains =>
    match pyIn c.2 (_get_item_value item c.1) with
    | Except.error _ => Except.ok OrRes.noMatch
    | Except.ok b => Except.ok (if b then OrRes.matched else OrRes.noMatch)
  | Op.notcontains =>
    match pyIn c.2 (_get_item_value item c.1) with
    | Except.error _ => Except.ok OrRes.matched
    | Except.ok b => Except.ok (if b then OrRes.noMatch else OrRes.matched)
  | Op.containsAny =>
    match pyContainsAnyChk c.2 (_get_item_value item c.1) with
    | Except.error e => Except.error e
    | Except.ok b => Except.ok (if b then OrRes.matched else OrRes.noMatch)
  | Op.notcontainsAny => Except.error PyErr.nameError

/-- One AND loop over an operator's clause list: the first failing clause
sets `keepIt = False` and breaks; errors abort the call. -/
def andGroup (op : Op) (item : Record) : List Clause → Except PyErr Bool
  | [] => Except.ok true
  | c :: rest =>
    match andMatch op item c with
    | Except.error e => Except.error e
    | Except.ok true => andGroup op item rest
    | Except.ok false => Except.ok false

/-- One OR loop over an operator's clause list: the first matching clause
sets `keepIt = True` and breaks; `stopGroup` abandons the rest of the
list. -/
def orGroup (op : Op) (item : Record) : List Clause → Except PyErr Bool
  | [] => Except.ok false
  | c :: rest =>
    match orMatch op item c with
    | Except.error e => Except.error e
    | Except.ok OrRes.matched => Except.ok true
    | Except.ok OrRes.noMatch => orGroup op item rest
    | Except.ok OrRes.stopGroup => Except.ok false

/-- The per-record AND chain: run the operator loops in order; a failed
loop drops the record immediately (`if keepIt is False: continue`), and a
record surviving all loops is kept. -/
def andOps (item : Record) (flt : Filters) : List Op → Except PyErr Bool
  | [] => Except.ok true
  | op :: rest =>
    match andGroup op item (getOpClauses flt op) with
    | Except.error e => Except.error e
    | Except.ok true => andOps item flt rest
    | Except.ok false => Except.ok false

/-- Whether `filterAnd` keeps a record (Base.py lines 125-298). -/
def andKeep (flt : Filters) (item : Record) : Except PyErr Bool :=
  andOps item flt opOrder

/-- The per-record OR chain: run the operator loops in order; a successful
loop accepts the record immediately (`if keepIt is True:
ret.append(item); continue`), and a record matching no loop is dropped. -/
def orOps (item : Record) (flt : Filters) : List Op → Except PyErr Bool
  | [] => Except.ok false
  | op :: rest =>
    match orGroup op item (getOpClauses flt op) with
    | Except.error e => Except.error e
    | Except.ok true => Except.ok true
    | Except.ok false => orOps item flt rest

/-- Whether `filterOr` keeps a record (Base.py lines 318-504). -/
def orKeep (flt : Filters) (item : Record) : Except PyErr Bool :=
  orOps item flt opOrder

/-- `QueryableListBase.filterAnd` applied to an already parsed FilterSpec
(Base.py lines 112-300): the records kept by `andKeep`, in input order; an
exception aborts the whole call with no result. -/
def filterAnd (l : List Record) (flt : Filters) : Except PyErr (List Record) :=
  match l with
  | [] => Except.ok []
  | item :: rest =>
    match andKeep flt item with
    | Except.error e => Except.error e
    | Except.ok keepIt =>
      match filterAnd rest flt with
      | Except.error e => Except.error e
      | Except.ok out => Except.ok (if keepIt then item :: out else out)

/-- `QueryableListBase.filterOr` applied to an already parsed FilterSpec
(Base.py lines 305-507). -/
def filterOr (l : List Record) (flt : Filters) : Except PyErr (List Record) :=
  match l with
  | [] => Except.ok []
  | item :: rest =>
    match orKeep flt item with
    | Except.error e => Except.error e
    | Except.ok keepIt =>
      match filterOr rest flt with
      | Except.error e => Except.error e
      | Except.ok out => Except.ok (if keepIt then item :: out else out)

/-- The full entry point `filterAnd(self, **kwargs)`: parse the keyword
arguments, then filter. -/
def filterAndArgs (l : List Record) (kwargs : List (String × Val)) :
    Except PyErr (List Record) :=
  match getFiltersFromArgs kwargs with
  | Except.error e => Except.error e
  | Except.ok flt => filterAnd l flt

/-- The full entry point `filterOr(self, **kwargs)`. -/
def filterOrArgs (l : List Record) (kwargs : List (String × Val)) :
    Except PyErr (List Record) :=
  match getFiltersFromArgs kwargs with
  | Except.error e => Except.error e
  | Except.ok flt => filterOr l flt

/-- A FilterSpec holding exactly one clause, under the given operator.
Every FilterSpec with exactly one clause is of this form. -/
def singleFilters (op : Op) (c : Clause) : Filters :=
  match op with
  | Op.eq => { emptyFilters with eq := [c] }
  | Op.ieq => { emptyFilters with ieq := [c] }
  | Op.ne => { emptyFilters with ne := [c] }
  | Op.ine => { emptyFilters with ine := [c] }
  | Op.lt => { emptyFilters with lt := [c] }
  | Op.lte => { emptyFilters with lte := [c] }
  | Op.gt => { emptyFilters with gt := [c] }
  | Op.gte => { emptyFilters with gte := [c] }
  | Op.is => { emptyFilters with is := [c] }
  | Op.isnot => { emptyFilters with isnot := [c] }
  | Op.«in» => { emptyFilters with «in» := [c] }
  | Op.notin => { emptyFilters with notin := [c] }
  | Op.contains => { emptyFilters with contains := [c] }
  | Op.notcontains => { emptyFilters with notcontains := [c] }
  | Op.containsAny => { emptyFilters with containsAny := [c] }
  | Op.notcontainsAny => { emptyFilters with notcontainsAny := [c] }

/-- Whether an OR clause result accepts the record. -/
def orResKeep : OrRes → Bool
  | OrRes.matched => true
  | OrRes.noMatch => false
  | OrRes.stopGroup => false

/-- A record satisfies every clause of a FilterSpec under the per-operator
match conditions (the conditions of the spec's operator table, which are
the AND-mode clause checks). -/
def satisfiesAll (flt : Filters) (item : Record) : Prop :=
  ∀ op ∈ opOrder, ∀ c ∈ getOpClauses flt op,
    andMatch op item c = Except.ok true

theorem andGroup_ok_true_iff (op : Op) (item : Record) (cs : List Clause) :
    andGroup op item cs = Except.ok true ↔
      ∀ c ∈ cs, andMatch op item c = Except.ok true := by
  induction cs with
  | nil => simp [andGroup]
  | cons c rest ih =>
    cases h : andMatch op item c with
    | error e => simp [andGroup, h, List.forall_mem_cons]
    | ok b => cases b <;> simp [andGroup, h, ih, List.forall_mem_cons]

theorem andOps_ok_true_iff (item : Record) (flt : Filters) (ops : List Op) :
    andOps item flt ops = Except.ok true ↔
      ∀ op ∈ ops, andGroup op item (getOpClauses flt op) = Except.ok true := by
  induction ops with
  | nil => simp [andOps]
  | cons op rest ih =>
    cases h : andGroup op item (getOpClauses flt op) with
    | error e => simp [andOps, h, List.forall_mem_cons]
    | ok b => cases b <;> simp [andOps, h, ih, List.forall_mem_cons]

theorem andKeep_ok_true_iff (flt : Filters) (item : Record) :
    andKeep flt item = Except.ok true ↔ satisfiesAll flt item := by
  unfold andKeep satisfiesAll
  rw [andOps_ok_true_iff]
  constructor
  · intro hall op hop c hc
    exact (andGroup_ok_true_iff op item _).mp (hall op hop) c hc
  · intro hall op hop
    exact (andGroup_ok_true_iff op item _).mpr (hall op hop)

theorem filterAnd_mem_iff (l : List Record) (flt : Filters) (out : List Record)
    (r : Record) (h : filterAnd l flt = Except.ok out) :
    r ∈ out ↔ (r ∈ l ∧ andKeep flt r = Except.ok true) := by
  induction l generalizing out with
  | nil =>
    simp only [filterAnd] at h
    injection h with h2
    subst h2
    simp
  | cons item rest ih =>
    simp only [filterAnd] at h
    cases hk : andKeep flt item with
    | error e => rw [hk] at h; exact absurd h (by simp)
    | ok keepIt =>
      rw [hk] at h
      cases hrec : filterAnd rest flt with
      | error e => rw [hrec] at h; exact absurd h (by simp)
      | ok out2 =>
        rw [hrec] at h
        injection h with h2
        subst h2
        cases keepIt with
        | true =>
          constructor
          · intro hr
            rcases List.mem_cons.mp hr with hr1 | hmem
            · subst hr1
              exact ⟨List.mem_cons_self _ _, hk⟩
            · obtain ⟨hl, hkp⟩ := (ih out2 hrec).mp hmem
              exact ⟨List.mem_cons_of_mem item hl, hkp⟩
          · rintro ⟨hl, hkp⟩
            rcases List.mem_cons.mp hl with hr1 | hmem
            · subst hr1
              exact List.mem_cons_self _ _
            · exact List.mem_cons_of_mem item ((ih out2 hrec).mpr ⟨hmem, hkp⟩)
        | false =>
          constructor
          · intro hr
            obtain ⟨hl, hkp⟩ := (ih out2 hrec).mp hr
            exact ⟨List.mem_cons_of_mem item hl, hkp⟩
          · rintro ⟨hl, hkp⟩
            rcases List.mem_cons.mp hl with hr1 | hmem
            · subst hr1
              exact absurd (hkp.symm.trans hk) (by simp)
            · exact (ih out2 hrec).mpr ⟨hmem, hkp⟩

theorem filterAnd_sublist (l : List Record) (flt : Filters) (out : List Record)
    (h : filterAnd l flt = Except.ok out) : out.Sublist l := by
  induction l generalizing out with
  | nil =>
    simp only [filterAnd] at h
    injection h with h2
    subst h2
    exact List.Sublist.refl []
  | cons item rest ih =>
    simp only [filterAnd] at h
    cases hk : andKeep flt item with
    | error e => rw [hk] at h; exact absurd h (by simp)
    | ok keepIt =>
      rw [hk] at h
      cases hrec : filterAnd rest flt with
      | error e => rw [hrec] at h; exact absurd h (by simp)
      | ok out2 =>
        rw [hrec] at h
        injection h with h2
        subst h2
        cases keepIt with
        | true => exact List.Sublist.cons₂ item (ih out2 hrec)
        | false => exact List.Sublist.cons item (ih out2 hrec)

theorem filterAnd_of_all_keep (l : List Record) (flt : Filters)
    (h : ∀ r ∈ l, andKeep flt r = Except.ok true) :
    filterAnd l flt = Except.ok l := by
  induction l with
  | nil => rfl
  | cons item rest ih =>
    have hk := h item (List.mem_cons_self item rest)
    have hrec := ih (fun r hr => h r (List.mem_cons_of_mem item hr))
    simp [filterAnd, hk, hrec]

/-- Claim C1: for every record sequence and every FilterSpec (hence in
particular every filter-argument set the parser accepts), when `filterAnd`
evaluates without error its result is a subsequence of the input in the
input's relative order, and a record appears in the result exactly when it
satisfies every clause under the per-operator match conditions. -/
theorem filterAnd_subsequence_and_membership (l : List Record) (flt : Filters)
    (out : List Record) (h : filterAnd l flt = Except.ok out) :
    out.Sublist l ∧ ∀ r, r ∈ out ↔ (r ∈ l ∧ satisfiesAll flt r) := by
  refine ⟨filterAnd_sublist l flt out h, fun r => ?_⟩
  rw [filterAnd_mem_iff l flt out r h, andKeep_ok_true_iff]

theorem filterAnd_subsequence_and_membership_witness :
    (filterAnd [[(("age"), Val.int 30)], [(("age"), Val.int 25)]]
        (singleFilters Op.eq (("age"), Val.int 30)) =
      Except.ok [[(("age"), Val.int 30)]]) ∧
    (([[(("age"), Val.int 30)]] : List Record).Sublist
        [[(("age"), Val.int 30)], [(("age"), Val.int 25)]] ∧
      ∀ r, r ∈ ([[(("age"), Val.int 30)]] : List Record) ↔
        (r ∈ ([[(("age"), Val.int 30)], [(("age"), Val.int 25)]] : List Record) ∧
          satisfiesAll (singleFilters Op.eq (("age"), Val.int 30)) r)) :=
  ⟨rfl, filterAnd_subsequence_and_membership _ _ _ rfl⟩

/-- Claim C9: filtering is idempotent; applying `filterAnd` with the same
FilterSpec to its own error-free result returns that result unchanged. -/
theorem filterAnd_idempotent (l : List Record) (flt : Filters)
    (out : List Record) (h : filterAnd l flt = Except.ok out) :
    filterAnd out flt = Except.ok out := by
  refine filterAnd_of_all_keep out flt (fun r hr => ?_)
  exact ((filterAnd_mem_iff l flt out r h).mp hr).2

theorem filterAnd_idempotent_witness :
    filterAnd [[(("age"), Val.int 30)], [(("age"), Val.int 31)]]
        (singleFilters Op.gt (("age"), Val.int 30)) =
      Except.ok [[(("age"), Val.int 31)]] ∧
    filterAnd [[(("age"), Val.int 31)]]
        (singleFilters Op.gt (("age"), Val.int 30)) =
      Except.ok [[(("age"), Val.int 31)]] :=
  ⟨rfl, filterAnd_idempotent [[(("age"), Val.int 30)], [(("age"), Val.int 31)]]
    (singleFilters Op.gt (("age"), Val.int 30)) [[(("age"), Val.int 31)]] rfl⟩

/-- Claim C10: with no filter arguments the parser yields the empty
FilterSpec, `filterAnd` returns every record in order (all records
vacuously satisfy all clauses) and `filterOr` returns the empty sequence
(no record has any satisfied clause).  In this pure embedding the input
sequence is a value and is unchanged by construction. -/
theorem empty_filter_results (l : List Record) :
    getFiltersFromArgs [] = Except.ok emptyFilters ∧
    filterAnd l emptyFilters = Except.ok l ∧
    filterOr l emptyFilters = Except.ok [] := by
  refine ⟨rfl, ?_, ?_⟩
  · induction l with
    | nil => rfl
    | cons item rest ih =>
      have hk : andKeep emptyFilters item = Except.ok true := rfl
      simp [filterAnd, hk, ih]
  · induction l with
    | nil => rfl
    | cons item rest ih =>
      have hk : orKeep emptyFilters item = Except.ok false := rfl
      simp [filterOr, hk, ih]

/-- Claim C2: the `notcontainsAny` loops of both `filterAnd` (Base.py
line 287) and `filterOr` (line 494) iterate over `Value`, a name defined
nowhere, so any record reaching a non-empty `notcontainsAny` clause list
raises `NameError` instead of evaluating the clause against its own value:
here the parser accepts the argument, yet both filters raise. -/
theorem notcontainsAny_raises_nameerror :
    getFiltersFromArgs [(("a__notcontainsAny"), Val.list [Val.str ("y")])] =
      Except.ok { emptyFilters with
        notcontainsAny := [(("a"), Val.list [Val.str ("y")])] } ∧
    filterAnd [[(("a"), Val.str ("x"))]]
        { emptyFilters with
          notcontainsAny := [(("a"), Val.list [Val.str ("y")])] } =
      Except.error PyErr.nameError ∧
    filterOr [[(("a"), Val.str ("x"))]]
        { emptyFilters with
          notcontainsAny := [(("a"), Val.list [Val.str ("y")])] } =
      Except.error PyErr.nameError :=
  ⟨rfl, rfl, rfl⟩

/-- Claim C3: in `filterOr` an `ieq` clause whose field value cannot be
case-folded runs `keepIt = False; break` (Base.py lines 371-375), which
abandons the remaining `ieq` clauses for that record.  Here the record
satisfies the second `ieq` clause under the per-operator match condition
(middle conjunct), yet `filterOr` returns the empty sequence because the
first `ieq` clause hits the integer field `a`. -/
theorem or_ieq_break_skips_later_clauses :
    getFiltersFromArgs [(("a__ieq"), Val.str ("x")), (("b__ieq"), Val.str ("foo"))] =
      Except.ok { emptyFilters with
        ieq := [(("a"), Val.str ("x")), (("b"), Val.str ("foo"))] } ∧
    andMatch Op.ieq [(("a"), Val.int 5), (("b"), Val.str ("foo"))]
        ((("b"), Val.str ("foo"))) = Except.ok true ∧
    filterOr [[(("a"), Val.int 5), (("b"), Val.str ("foo"))]]
        { emptyFilters with
          ieq := [(("a"), Val.str ("x")), (("b"), Val.str ("foo"))] } =
      Except.ok [] :=
  ⟨rfl, rfl, rfl⟩

/-- Claim C5 counterexample: a key whose last `__`-delimited segment is not
a canonical operator makes the parser raise `ValueError` — it is not
treated as a literal `eq` field name. -/
theorem unknown_suffix_parse_fails_cex :
    getFiltersFromArgs [(("a__between"), Val.int 0)] =
      Except.error (PyErr.valueError (unknownFilterTypeMsg ("between"))) :=
  rfl

/-- Claim C5 (amended): when the key matches `field__suffix`, the suffix is
stripped only for known operators and an unknown suffix raises
`ValueError`; the whole key is used verbatim as an `eq` field name only
when the key does not match the pattern at all. -/
theorem last_dunder_operator_resolution (key f t : String) (v : Val) :
    (filterParamMatch key = none →
      getFiltersFromArgs [(key, v)] =
        Except.ok (appendClause emptyFilters ("eq") (key, v))) ∧
    (filterParamMatch key = some (f, t) → t ∉ FILTER_TYPES →
      getFiltersFromArgs [(key, v)] =
        Except.error (PyErr.valueError (unknownFilterTypeMsg t))) := by
  constructor
  · intro hm
    simp [getFiltersFromArgs, getFiltersFromArgsAux, applyFilterArg, hm]
  · intro hm ht
    simp [getFiltersFromArgs, getFiltersFromArgsAux, applyFilterArg, hm, ht]

theorem last_dunder_operator_resolution_witness :
    getFiltersFromArgs [(("total__count"), Val.int 1)] =
      Except.error (PyErr.valueError (unknownFilterTypeMsg ("count"))) ∧
    getFiltersFromArgs [(("plainfield"), Val.int 1)] =
      Except.ok (appendClause emptyFilters ("eq") (("plainfield"), Val.int 1)) :=
  ⟨(last_dunder_operator_resolution ("total__count") ("total") ("count")
      (Val.int 1)).2 rfl (by decide),
    (last_dunder_operator_resolution ("plainfield") ("") ("") (Val.int 1)).1 rfl⟩

/-- Claim C6 counterexample: an `ieq` argument whose value has no `lower()`
makes the parser itself raise `AttributeError` (Base.py line 79 has no
try/except); the raw value is not propagated. -/
theorem ieq_nonstring_parse_fails_cex :
    getFiltersFromArgs [(("a__ieq"), Val.int 5)] =
      Except.error PyErr.attributeError :=
  rfl

/-- Claim C6 (amended): for an `ieq` or `ine` argument whose value cannot
be lower-cased the parser fails, propagating the `AttributeError` from the
eager lower-casing; parsing never reaches the remaining arguments. -/
theorem ieq_ine_lower_error_propagates (key f t : String) (v : Val) (e : PyErr)
    (rest : List (String × Val)) (hm : filterParamMatch key = some (f, t))
    (ht : t = ("ieq") ∨ t = ("ine")) (hl : pyLower v = Except.error e) :
    getFiltersFromArgs ((key, v) :: rest) = Except.error e := by
  rcases ht with ht | ht <;> subst ht <;>
    simp [getFiltersFromArgs, getFiltersFromArgsAux, applyFilterArg, hm, hl,
      FILTER_TYPES]

theorem ieq_ine_lower_error_propagates_witness :
    getFiltersFromArgs [(("name__ine"), Val.list [])] =
      Except.error PyErr.attributeError :=
  ieq_ine_lower_error_propagates ("name__ine") ("name") ("ine") (Val.list [])
    PyErr.attributeError [] rfl (Or.inr rfl) rfl

/-- Claim C8: a key whose recognized suffix is not a canonical operator
makes parsing fail with the unknown-filter-type `ValueError`, whose message
(`unknownFilterTypeMsg`) names the offending operator token literally and
lists the valid choices. -/
theorem unknown_operator_error_message (key f t : String) (v : Val)
    (rest : List (String × Val)) (hm : filterParamMatch key = some (f, t))
    (ht : t ∉ FILTER_TYPES) :
    getFiltersFromArgs ((key, v) :: rest) =
      Except.error (PyErr.valueError (unknownFilterTypeMsg t)) := by
  simp [getFiltersFromArgs, getFiltersFromArgsAux, applyFilterArg, hm, ht]

theorem unknown_operator_error_message_witness :
    getFiltersFromArgs [(("age__between"), Val.list [Val.int 1, Val.int 2])] =
      Except.error (PyErr.valueError (unknownFilterTypeMsg ("between"))) ∧
    unknownFilterTypeMsg ("between") =
      ("Unknown filter type: between. Choices are: (eq, ieq, ne, ine, lt, lte, gt, gte, is, isnot, isnull, in, notin, contains, notcontains, containsAny, notcontainsAny)") :=
  ⟨unknown_operator_error_message ("age__between") ("age") ("between")
      (Val.list [Val.int 1, Val.int 2]) [] rfl (by decide), rfl⟩

/-- Claim C7: an `isnull` argument fails with the invalid-value error
exactly when its value is not a strict boolean; `True` is rewritten to an
`is` clause on the null sentinel and `False` to an `isnot` clause, so the
parse results (and hence all filtering) coincide with those of
`field__is=None` and `field__isnot=None`.  The FilterSpec structure has no
`isnull` entry at all, so no parse result can contain one. -/
theorem isnull_rewrite_spec (kNull kIs kIsnot f : String)
    (rest : List (String × Val))
    (h0 : filterParamMatch kNull = some (f, ("isnull")))
    (h1 : filterParamMatch kIs = some (f, ("is")))
    (h2 : filterParamMatch kIsnot = some (f, ("isnot"))) :
    (∀ v : Val, (∀ b, v ≠ Val.bool b) →
      getFiltersFromArgs ((kNull, v) :: rest) =
        Except.error (PyErr.valueError
          ("Filter type \"isnull\" requires True/False."))) ∧
    getFiltersFromArgs ((kNull, Val.bool true) :: rest) =
      getFiltersFromArgs ((kIs, Val.none) :: rest) ∧
    getFiltersFromArgs ((kNull, Val.bool false) :: rest) =
      getFiltersFromArgs ((kIsnot, Val.none) :: rest) ∧
    applyFilterArg emptyFilters kNull (Val.bool true) =
      Except.ok (appendClause emptyFilters ("is") (f, Val.none)) ∧
    applyFilterArg emptyFilters kNull (Val.bool false) =
      Except.ok (appendClause emptyFilters ("isnot") (f, Val.none)) := by
  refine ⟨?_, ?_, ?_, ?_, ?_⟩
  · intro v hv
    cases v with
    | bool b => exact absurd rfl (hv b)
    | none =>
      simp [getFiltersFromArgs, getFiltersFromArgsAux, applyFilterArg, h0,
        FILTER_TYPES]
    | int n =>
      simp [getFiltersFromArgs, getFiltersFromArgsAux, applyFilterArg, h0,
        FILTER_TYPES]
    | str s =>
      simp [getFiltersFromArgs, getFiltersFromArgsAux, applyFilterArg, h0,
        FILTER_TYPES]
    | list elems =>
      simp [getFiltersFromArgs, getFiltersFromArgsAux, applyFilterArg, h0,
        FILTER_TYPES]
  · simp [getFiltersFromArgs, getFiltersFromArgsAux, applyFilterArg, h0, h1,
      FILTER_TYPES]
  · simp [getFiltersFromArgs, getFiltersFromArgsAux, applyFilterArg, h0, h2,
      FILTER_TYPES]
  · simp [applyFilterArg, h0, FILTER_TYPES]
  · simp [applyFilterArg, h0, FILTER_TYPES]

theorem isnull_rewrite_spec_witness :
    getFiltersFromArgs [(("active__isnull"), Val.bool true)] =
      getFiltersFromArgs [(("active__is"), Val.none)] ∧
    getFiltersFromArgs [(("active__isnull"), Val.bool false)] =
      getFiltersFromArgs [(("active__isnot"), Val.none)] ∧
    getFiltersFromArgs [(("active__isnull"), Val.int 1)] =
      Except.error (PyErr.valueError
        ("Filter type \"isnull\" requires True/False.")) :=
  have h := isnull_rewrite_spec ("active__isnull") ("active__is")
    ("active__isnot") ("active") [] rfl rfl rfl
  ⟨h.2.1, h.2.2.1, h.1 (Val.int 1) (fun _ hb => Val.noConfusion hb)⟩

theorem andKeep_singleFilters (op : Op) (c : Clause) (item : Record) :
    andKeep (singleFilters op c) item =
      (match andMatch op item c with
       | Except.error e => Except.error e
       | Except.ok b => Except.ok b) := by
  cases h : andMatch op item c with
  | error e =>
    cases op <;>
      simp [andKeep, andOps, opOrder, singleFilters, getOpClauses, andGroup,
        emptyFilters, h]
  | ok b =>
    cases b <;> cases op <;>
      simp [andKeep, andOps, opOrder, singleFilters, getOpClauses, andGroup,
        emptyFilters, h]

theorem orKeep_singleFilters (op : Op) (c : Clause) (item : Record) :
    orKeep (singleFilters op c) item =
      (match orMatch op item c with
       | Except.error e => Except.error e
       | Except.ok r => Except.ok (orResKeep r)) := by
  cases h : orMatch op item c with
  | error e =>
    cases op <;>
      simp [orKeep, orOps, opOrder, singleFilters, getOpClauses, orGroup,
        emptyFilters, h]
  | ok r =>
    cases r <;> cases op <;>
      simp [orKeep, orOps, opOrder, singleFilters, getOpClauses, orGroup,
        emptyFilters, h, orResKeep]

theorem andMatch_orMatch_agree (op : Op) (item : Record) (c : Clause)
    (hine : op = Op.ine →
      ∃ lv, pyLower (_get_item_value item c.1) = Except.ok lv) :
    andMatch op item c =
      (match orMatch op item c with
       | Except.error e => Except.error e
       | Except.ok r => Except.ok (orResKeep r)) := by
  cases op with
  | is =>
    cases hpy : pyIs (_get_item_value item c.1) c.2 <;>
      simp [andMatch, orMatch, orResKeep, hpy]
  | isnot =>
    cases hpy : pyIs (_get_item_value item c.1) c.2 <;>
      simp [andMatch, orMatch, orResKeep, hpy]
  | «in» =>
    cases hin : pyIn (_get_item_value item c.1) c.2 with
    | error e => simp [andMatch, orMatch, hin]
    | ok b => cases b <;> simp [andMatch, orMatch, orResKeep, hin]
  | notin =>
    cases hin : pyIn (_get_item_value item c.1) c.2 with
    | error e => simp [andMatch, orMatch, hin]
    | ok b => cases b <;> simp [andMatch, orMatch, orResKeep, hin]
  | eq =>
    cases hpe : pyEq (_get_item_value item c.1) c.2 <;>
      simp [andMatch, orMatch, orResKeep, hpe]
  | ne =>
    cases hpe : pyEq (_get_item_value item c.1) c.2 <;>
      simp [andMatch, orMatch, orResKeep, hpe]
  | ieq =>
    cases hlo : pyLower (_get_item_value item c.1) with
    | error e => simp [andMatch, orMatch, orResKeep, hlo]
    | ok lv =>
      cases hpe : pyEq lv c.2 <;>
        simp [andMatch, orMatch, orResKeep, hlo, hpe]
  | ine =>
    obtain ⟨lv, hlv⟩ := hine rfl
    cases hpe : pyEq lv c.2 <;>
      simp [andMatch, orMatch, orResKeep, hlv, hpe]
  | lt =>
    cases hcmp : pyCmp (_get_item_value item c.1) c.2 with
    | error e => simp [andMatch, orMatch, pyGe, pyLt, hcmp]
    | ok o => cases o <;> simp [andMatch, orMatch, pyGe, pyLt, hcmp, orResKeep] <;> decide
  | lte =>
    cases hcmp : pyCmp (_get_item_value item c.1) c.2 with
    | error e => simp [andMatch, orMatch, pyGt, pyLe, hcmp]
    | ok o => cases o <;> simp [andMatch, orMatch, pyGt, pyLe, hcmp, orResKeep] <;> decide
  | gt =>
    cases hcmp : pyCmp (_get_item_value item c.1) c.2 with
    | error e => simp [andMatch, orMatch, pyLe, pyGt, hcmp]
    | ok o => cases o <;> simp [andMatch, orMatch, pyLe, pyGt, hcmp, orResKeep] <;> decide
  | gte =>
    cases hcmp : pyCmp (_get_item_value item c.1) c.2 with
    | error e => simp [andMatch, orMatch, pyLt, pyGe, hcmp]
    | ok o => cases o <;> simp [andMatch, orMatch, pyLt, pyGe, hcmp, orResKeep] <;> decide
  | contains =>
    cases hin : pyIn c.2 (_get_item_value item c.1) with
    | error e => simp [andMatch, orMatch, orResKeep, hin]
    | ok b => cases b <;> simp [andMatch, orMatch, orResKeep, hin]
  | notcontains =>
    cases hin : pyIn c.2 (_get_item_value item c.1) with
    | error e => simp [andMatch, orMatch, orResKeep, hin]
    | ok b => cases b <;> simp [andMatch, orMatch, orResKeep, hin]
  | containsAny =>
    cases hca : pyContainsAnyChk c.2 (_get_item_value item c.1) with
    | error e => simp [andMatch, orMatch, hca]
    | ok b => cases b <;> simp [andMatch, orMatch, orResKeep, hca]
  | notcontainsAny => simp [andMatch, orMatch]

theorem filter_eq_of_keep_eq (l : List Record) (flt : Filters)
    (h : ∀ r ∈ l, andKeep flt r = orKeep flt r) :
    filterAnd l flt = filterOr l flt := by
  induction l with
  | nil => rfl
  | cons item rest ih =>
    have hk := h item (List.mem_cons_self item rest)
    have hrec := ih (fun r hr => h r (List.mem_cons_of_mem item hr))
    simp only [filterAnd, filterOr]
    rw [hk, hrec]

/-- Claim C4 counterexample: a single `ine` clause on a record whose field
value cannot be case-folded is kept by `filterAnd` (the AND loop treats the
fold failure as "does not equal", Base.py lines 197-201) but dropped by
`filterOr` (the OR loop merely skips the clause, lines 397-400): the two
results differ for this parser-produced single-clause FilterSpec. -/
theorem single_ine_unfoldable_and_or_differ :
    getFiltersFromArgs [(("a__ine"), Val.str ("x"))] =
      Except.ok (singleFilters Op.ine (("a"), Val.str ("x"))) ∧
    filterAnd [[(("a"), Val.int 5)]]
        (singleFilters Op.ine (("a"), Val.str ("x"))) =
      Except.ok [[(("a"), Val.int 5)]] ∧
    filterOr [[(("a"), Val.int 5)]]
        (singleFilters Op.ine (("a"), Val.str ("x"))) =
      Except.ok [] :=
  ⟨rfl, rfl, rfl⟩

/-- Claim C4 (amended): for a FilterSpec containing exactly one clause,
`filterAnd` and `filterOr` return identical results — including identical
errors — except in the one case the counterexample exhibits: an `ine`
clause applied to a record whose field value cannot be case-folded (the
hypothesis restricts only that case). -/
theorem single_clause_and_or_agree (op : Op) (c : Clause) (l : List Record)
    (hine : op = Op.ine →
      ∀ r ∈ l, ∃ lv, pyLower (_get_item_value r c.1) = Except.ok lv) :
    filterAnd l (singleFilters op c) = filterOr l (singleFilters op c) := by
  refine filter_eq_of_keep_eq l (singleFilters op c) (fun r hr => ?_)
  rw [andKeep_singleFilters, orKeep_singleFilters,
    andMatch_orMatch_agree op r c (fun hop => hine hop r hr)]
  cases orMatch op r c <;> rfl

theorem single_clause_and_or_agree_witness :
    filterAnd [[(("name"), Val.str ("Tom"))], [(("name"), Val.str ("amy"))]]
        (singleFilters Op.ine (("name"), Val.str ("tom"))) =
      filterOr [[(("name"), Val.str ("Tom"))], [(("name"), Val.str ("amy"))]]
        (singleFilters Op.ine (("name"), Val.str ("tom"))) :=
  single_clause_and_or_agree Op.ine (("name"), Val.str ("tom"))
    [[(("name"), Val.str ("Tom"))], [(("name"), Val.str ("amy"))]]
    (by            -- both records carry string name fields, so both fold
      intro hop r hr
      rcases List.mem_cons.mp hr with h1 | h1
      · subst h1
        exact ⟨Val.str ("tom"), rfl⟩
      · rcases List.mem_cons.mp h1 with h2 | h2
        · subst h2
          exact ⟨Val.str ("amy"), rfl⟩
        · cases h2)
